import Mathlib

/-!
Verification of the MCP protocol test client
(`src/examples/mcp-testing/test-mcp.py`).

The script is a single-threaded JSON-RPC-over-stdio test client: it spawns a
child process, serializes requests to the child stdin as newline-terminated
JSON documents, reads one line of response per request from the child
stdout, and prints diagnostics.  We embed it shallowly:

* Parsed JSON / Python values are the inductive `Json` (numbers as integers:
  every literal in the script is integral).  A parsed JSON `null` and the
  Python value `None` are represented alike by `Json.null`; both print as
  `None`, so the identification is behaviour-preserving for this script.
* The stdout of the child is a list of lines, each pre-classified by whether
  `json.loads` would accept it: `some j` is a non-empty line parsing to `j`,
  `none` is a non-empty line that is not valid JSON text (a blank line,
  which `readline` returns as "\n", is such a line).  The end of the list is
  end-of-stream: there `readline` returns the empty string.
* The stdin of the child is a flag `stdin_open`: writing while the pipe is closed
  raises (`BrokenPipeError`); this is the only write-failure mode modelled.
* All I/O on the child is recorded in an event trace `events`; the requests
  transmitted (successfully written) are additionally recorded, already
  decoded, in `sent` — the written string is exactly `dumps` of the request,
  so `sent` carries the same information as the `write` events.
* Console output is the list `printed`, one entry per `print` call.
* A raised Python exception is `Except.error`; the state at the moment of the
  raise is returned alongside, since the mutated object survives the raise.
-/

namespace UIProbe

/-- A parsed JSON value (also used for the Python literals the script builds).
Numbers are integers: every number the script manipulates is integral. -/
inductive Json where
  | null
  | bool (b : Bool)
  | num (n : Int)
  | str (s : String)
  | arr (xs : List Json)
  | obj (kvs : List (String × Json))
deriving Repr

mutual

/-- Structural equality on JSON values (Python `==` restricted to the values
`json.loads` produces; parsed dicts have distinct keys, and we compare member
lists in order). -/
def beqJson : Json → Json → Bool
  | .null, .null => true
  | .bool a, .bool b => a == b
  | .num a, .num b => a == b
  | .str a, .str b => a == b
  | .arr a, .arr b => beqJsonList a b
  | .obj a, .obj b => beqJsonObj a b
  | _, _ => false

/-- Elementwise `beqJson` on lists. -/
def beqJsonList : List Json → List Json → Bool
  | [], [] => true
  | a :: as, b :: bs => beqJson a b && beqJsonList as bs
  | _, _ => false

/-- Elementwise `beqJson` on member lists. -/
def beqJsonObj : List (String × Json) → List (String × Json) → Bool
  | [], [] => true
  | (k1, v1) :: as, (k2, v2) :: bs => k1 == k2 && beqJson v1 v2 && beqJsonObj as bs
  | _, _ => false

end

instance : BEq Json := ⟨beqJson⟩

/-- Python truthiness (`bool(x)`) of a JSON / Python value: `None`, `False`,
`0`, `""`, `[]` and the empty mapping are falsy, everything else truthy. -/
def pyTruthy : Json → Bool
  | .null => false
  | .bool b => b
  | .num n => n != 0
  | .str s => s != ""
  | .arr xs => !xs.isEmpty
  | .obj kvs => !kvs.isEmpty

/-- A run of `n` spaces. -/
def spaces (n : Nat) : String :=
  String.mk (List.replicate n ' ')

/-- Code-point slice `s[:n]` (Python slices strings by code point, as does
`List.take` on `s.toList`). -/
def strTake (s : String) (n : Nat) : String :=
  String.mk (s.toList.take n)

/-- Lower-case hexadecimal digit. -/
def hexDigit (n : Nat) : Char :=
  if n < 10 then Char.ofNat (48 + n) else Char.ofNat (97 + (n - 10))

/-- Four lower-case hexadecimal digits, as in a JSON `\uXXXX` escape. -/
def hex4 (n : Nat) : String :=
  String.mk [hexDigit (n / 4096 % 16), hexDigit (n / 256 % 16),
             hexDigit (n / 16 % 16), hexDigit (n % 16)]

/-- Escaping of one character as `json.dumps` does it (default `ensure_ascii=True`:
everything outside `0x20`–`0x7e` becomes an escape, astral code points as a
surrogate pair). -/
def escChar (c : Char) : String :=
  if c = '"' then "\\\""
  else if c = '\\' then "\\\\"
  else if c = '\n' then "\\n"
  else if c = '\r' then "\\r"
  else if c = '\t' then "\\t"
  else if c.toNat = 8 then "\\b"
  else if c.toNat = 12 then "\\f"
  else if c.toNat < 32 then "\\u" ++ hex4 c.toNat
  else if c.toNat < 127 then String.mk [c]
  else if c.toNat ≤ 65535 then "\\u" ++ hex4 c.toNat
  else
    "\\u" ++ hex4 (55296 + (c.toNat - 65536) / 1024) ++
    "\\u" ++ hex4 (56320 + (c.toNat - 65536) % 1024)

/-- A JSON string literal: quotes around the escaped characters. -/
def jsonQuote (s : String) : String :=
  "\"" ++ s.toList.foldl (fun acc c => acc ++ escChar c) "" ++ "\""

mutual

/-- Python `json.dumps(j)` with the default separators `", "` and `": "`. -/
def dumps : Json → String
  | .null => "null"
  | .bool true => "true"
  | .bool false => "false"
  | .num n => toString n
  | .str s => jsonQuote s
  | .arr xs => "[" ++ dumpsItems xs ++ "]"
  | .obj kvs => "\x7b" ++ dumpsMembers kvs ++ "\x7d"

/-- Array items of `dumps`, joined by `", "`. -/
def dumpsItems : List Json → String
  | [] => ""
  | [x] => dumps x
  | x :: y :: rest => dumps x ++ ", " ++ dumpsItems (y :: rest)

/-- Object members of `dumps`, joined by `", "`, each `"key": value`. -/
def dumpsMembers : List (String × Json) → String
  | [] => ""
  | [(k, v)] => jsonQuote k ++ ": " ++ dumps v
  | (k, v) :: m :: rest => jsonQuote k ++ ": " ++ dumps v ++ ", " ++ dumpsMembers (m :: rest)

end

/-- Two further spaces of indentation after every newline of `s`: re-bases a
rendering made at indentation level 0 to one nesting level deeper.  the Python
`indent=2` renderer indents every line of a nested container by two more
spaces than its parent, so rendering at level 0 and re-indenting the nested
body is the same function. -/
def deepen (s : String) : String :=
  String.mk (s.toList.foldr
    (fun c acc => if c = '\n' then '\n' :: ' ' :: ' ' :: acc else c :: acc) [])

mutual

/-- Python `json.dumps(j, indent=2)` (top level).  Empty containers stay inline;
non-empty ones put one item per line, two spaces deeper, with the closing
bracket back at the level of the container. -/
def dumpsInd : Json → String
  | .null => "null"
  | .bool true => "true"
  | .bool false => "false"
  | .num n => toString n
  | .str s => jsonQuote s
  | .arr [] => "[]"
  | .arr (x :: xs) => "[\n" ++ dumpsIndItems (x :: xs) ++ "\n]"
  | .obj [] => "\x7b\x7d"
  | .obj (kv :: kvs) => "\x7b\n" ++ dumpsIndMembers (kv :: kvs) ++ "\n\x7d"

/-- The item lines of an indented array, joined by `",\n"`. -/
def dumpsIndItems : List Json → String
  | [] => ""
  | [x] => "  " ++ deepen (dumpsInd x)
  | x :: y :: rest => "  " ++ deepen (dumpsInd x) ++ ",\n" ++ dumpsIndItems (y :: rest)

/-- The member lines of an indented object, joined by `",\n"`. -/
def dumpsIndMembers : List (String × Json) → String
  | [] => ""
  | [(k, v)] => "  " ++ jsonQuote k ++ ": " ++ deepen (dumpsInd v)
  | (k, v) :: m :: rest =>
      "  " ++ jsonQuote k ++ ": " ++ deepen (dumpsInd v) ++ ",\n" ++
      dumpsIndMembers (m :: rest)

end

/-- Python `json.dumps(params, indent=2)` where `params` is the raw argument of
`send_request`, possibly the default `None` (which dumps as `null`). -/
def dumpsOptInd : Option Json → String
  | none => "null"
  | some p => dumpsInd p

/-- Two lower-case hexadecimal digits. -/
def hex2 (n : Nat) : String :=
  String.mk [hexDigit (n / 16 % 16), hexDigit (n % 16)]

/-- The apostrophe character (the quote Python prefers for string repr). -/
def apos : Char := Char.ofNat 39

/-- One character of a Python string repr quoted with `q`. -/
def pyReprChar (q : Char) (c : Char) : String :=
  if c = '\\' then "\\\\"
  else if c = q then "\\" ++ String.mk [q]
  else if c = '\n' then "\\n"
  else if c = '\r' then "\\r"
  else if c = '\t' then "\\t"
  else if c.toNat < 32 || c.toNat = 127 then "\\x" ++ hex2 c.toNat
  else String.mk [c]

/-- Python `repr` of a string: single-quoted, except double-quoted when the
string holds an apostrophe but no double quote. -/
def pyStrRepr (s : String) : String :=
  let q := if s.contains apos && !s.contains '"' then '"' else apos
  String.mk [q] ++ s.toList.foldl (fun acc c => acc ++ pyReprChar q c) "" ++ String.mk [q]

mutual

/-- Python `repr` of a parsed JSON / Python value (used by `str` on containers). -/
def pyRepr : Json → String
  | .null => "None"
  | .bool true => "True"
  | .bool false => "False"
  | .num n => toString n
  | .str s => pyStrRepr s
  | .arr xs => "[" ++ pyReprItems xs ++ "]"
  | .obj kvs => "\x7b" ++ pyReprMembers kvs ++ "\x7d"

/-- List items of `pyRepr`, joined by `", "`. -/
def pyReprItems : List Json → String
  | [] => ""
  | [x] => pyRepr x
  | x :: y :: rest => pyRepr x ++ ", " ++ pyReprItems (y :: rest)

/-- Dict members of `pyRepr`, joined by `", "`, each `key: value` in repr. -/
def pyReprMembers : List (String × Json) → String
  | [] => ""
  | [(k, v)] => pyStrRepr k ++ ": " ++ pyRepr v
  | (k, v) :: m :: rest => pyStrRepr k ++ ": " ++ pyRepr v ++ ", " ++ pyReprMembers (m :: rest)

end

/-- Python `str(x)` as used by an f-string: strings verbatim, `None`/`True`/`False`,
decimal integers, containers via `repr`. -/
def pyStr : Json → String
  | .str s => s
  | j => pyRepr j

/-- The Python exceptions this script can raise. -/
inductive PyError where
  /-- Raised as `json.JSONDecodeError`: `json.loads` on text that is not valid JSON. -/
  | jsonDecodeError
  /-- Raised as `BrokenPipeError`: writing to the stdin of the child after it closed. -/
  | brokenPipeError
  /-- Raised as `TypeError`: e.g. `len`, slicing or string subscript on the wrong type. -/
  | typeError
  /-- Raised as `AttributeError`: `.get` on a value that is not a dict. -/
  | attributeError
  /-- Raised as `KeyError`: subscripting a dict with an absent key. -/
  | keyError
deriving Repr, DecidableEq

/-- One I/O operation on the standard streams of the child process. -/
inductive WireEvent where
  /-- One `self.process.stdin.write(s)` call. -/
  | write (s : String)
  /-- One `self.process.stdin.flush()` call. -/
  | flush
  /-- One `self.process.stdout.readline()` call. -/
  | readline
deriving Repr, DecidableEq

/-- The JSON-RPC request dict built by `send_request`, with its fields in the
insertion order of the script: `jsonrpc`, `method`, `params`, `id`. -/
structure Request where
  jsonrpc : String
  method : String
  params : Json
  id : Nat
deriving Repr

/-- The request dict as the JSON value that is serialized onto the wire. -/
def Request.toJson (r : Request) : Json :=
  Json.obj [("jsonrpc", .str r.jsonrpc), ("method", .str r.method),
            ("params", r.params), ("id", .num (r.id : Int))]

/-- The mutable state of one `MCPTestClient` session, together with its
observable environment: the streams of the child and the console. -/
structure ClientState where
  /-- Counter `self.request_id`: the identifier the next request will carry. -/
  request_id : Nat
  /-- The requests transmitted so far (the decoded contents of the `write`
  events, in order). -/
  sent : List Request
  /-- The I/O operations performed on the streams of the child, in order. -/
  events : List WireEvent
  /-- Console output, one entry per `print` call. -/
  printed : List String
  /-- The remaining stdout lines of the child: `some j` is a non-empty line that
  parses to `j`, `none` a non-empty line that is not valid JSON; the end of
  the list is end-of-stream (`readline` then returns the empty string). -/
  stdout : List (Option Json)
  /-- Whether the stdin pipe of the child is still accepting writes. -/
  stdin_open : Bool
deriving Repr

/-- Constructor `MCPTestClient.__init__` for an environment whose child will emit `out`
and whose stdin accepts writes iff `stdinOk`: prints the startup banner and
sets `self.request_id = 1`.  (Process spawning and the 3-second settling
sleep have no further observable effect in the model.) -/
def ClientState.init (out : List (Option Json)) (stdinOk : Bool) : ClientState :=
  { request_id := 1
    sent := []
    events := []
    printed := ["🚀 Starting UI-Probe MCP Server..."]
    stdout := out
    stdin_open := stdinOk }

/-- One `print` call. -/
def pr (st : ClientState) (s : String) : ClientState :=
  { st with printed := st.printed ++ [s] }

/-- Evaluation of `params or {}`: the `params` field of the request is the supplied value when
that value is truthy, and the empty dict when the argument is omitted (the
default is `None`) or falsy. -/
def effectiveParams : Option Json → Json
  | none => Json.obj []
  | some p => if pyTruthy p then p else Json.obj []

/-- The request dict `send_request` builds:
`{"jsonrpc": "2.0", "method": method, "params": params or {}, "id": self.request_id}`. -/
def mkRequest (method : String) (params : Option Json) (rid : Nat) : Request :=
  { jsonrpc := "2.0", method := method, params := effectiveParams params, id := rid }

/-- Method `MCPTestClient.send_request(method, params=None)`.  Builds the request
dict, increments `self.request_id`, prints the two diagnostic lines, writes
the request as one newline-terminated JSON document and flushes, then reads
one line of response: a parsed line is returned as-is, end-of-stream yields
`{}`, and unparseable text raises.  A raise returns the state at the moment
of the exception alongside the error. -/
def send_request (method : String) (params : Option Json) (st : ClientState) :
    ClientState × Except PyError Json :=
  let req := mkRequest method params st.request_id
  let st := { st with request_id := st.request_id + 1 }
  let st := pr st ("\n📤 Sending: " ++ method)
  let st := pr st ("   Params: " ++ dumpsOptInd params)
  if st.stdin_open then
    let request_str := dumps req.toJson ++ "\n"
    let st := { st with
                events := st.events ++ [WireEvent.write request_str, WireEvent.flush]
                sent := st.sent ++ [req] }
    match st.stdout with
    | [] =>
        ({ st with events := st.events ++ [WireEvent.readline] }, .ok (Json.obj []))
    | line :: rest =>
        let st := { st with events := st.events ++ [WireEvent.readline], stdout := rest }
        match line with
        | none => (st, .error PyError.jsonDecodeError)
        | some response =>
            (pr st ("📥 Response: " ++ strTake (dumpsInd response) 500 ++ "..."),
             .ok response)
  else
    (st, .error PyError.brokenPipeError)

/-- Method `MCPTestClient.call_tool(tool_name, arguments)`: a `tools/call` request
whose params are `{"name": tool_name, "arguments": arguments}`. -/
def call_tool (tool_name : String) (arguments : Json) (st : ClientState) :
    ClientState × Except PyError Json :=
  send_request "tools/call"
    (some (Json.obj [("name", Json.str tool_name), ("arguments", arguments)])) st

/-- Lookup of a key in the member list of a parsed dict. -/
def lookupKey (kvs : List (String × Json)) (k : String) : Option Json :=
  (kvs.find? (fun kv => kv.1 == k)).map Prod.snd

/-- Python `k in j` for a string `k`: key test on a dict, membership on a
list, substring test on a string; `TypeError` otherwise. -/
def pyContains (j : Json) (k : String) : Except PyError Bool :=
  match j with
  | .obj kvs => .ok (lookupKey kvs k).isSome
  | .arr xs => .ok (xs.any (fun x => x == Json.str k))
  | .str s => .ok (decide (List.IsInfix k.toList s.toList))
  | _ => .error PyError.typeError

/-- Python `j[k]` for a string `k`: dict lookup (`KeyError` when absent);
`TypeError` on any non-dict (list and string subscripts must be integers). -/
def pySubscript (j : Json) (k : String) : Except PyError Json :=
  match j with
  | .obj kvs =>
      match lookupKey kvs k with
      | some v => .ok v
      | none => .error PyError.keyError
  | _ => .error PyError.typeError

/-- Python `j.get(k, default)`: only dicts have `.get`. -/
def pyGet (j : Json) (k : String) (default : Json) : Except PyError Json :=
  match j with
  | .obj kvs => .ok ((lookupKey kvs k).getD default)
  | _ => .error PyError.attributeError

/-- Python `len(j)`. -/
def pyLen (j : Json) : Except PyError Nat :=
  match j with
  | .arr xs => .ok xs.length
  | .str s => .ok s.length
  | .obj kvs => .ok kvs.length
  | _ => .error PyError.typeError

/-- Python `j[:n]` on a sequence (a slice of a dict raises). -/
def pySlice (j : Json) (n : Nat) : Except PyError Json :=
  match j with
  | .str s => .ok (.str (strTake s n))
  | .arr xs => .ok (.arr (xs.take n))
  | _ => .error PyError.typeError

/-- The values `for … in j` iterates over: list elements, the one-character
strings of a string, the keys of a dict. -/
def pyIter (j : Json) : Except PyError (List Json) :=
  match j with
  | .arr xs => .ok xs
  | .str s => .ok (s.toList.map (fun c => Json.str (String.mk [c])))
  | .obj kvs => .ok (kvs.map (fun kv => Json.str kv.1))
  | _ => .error PyError.typeError

/-- The line printed for one tool in the tools/list report:
`f"   - \x7btool.get(\"name\")\x7d: \x7btool.get(\"description\", \"\")[:60]\x7d..."` (the source quotes the keys with single quotes). -/
def toolLine (tool : Json) : Except PyError String :=
  match pyGet tool "name" Json.null with
  | .error e => .error e
  | .ok name =>
      match pyGet tool "description" (Json.str "") with
      | .error e => .error e
      | .ok desc =>
          match pySlice desc 60 with
          | .error e => .error e
          | .ok d => .ok ("   - " ++ pyStr name ++ ": " ++ pyStr d ++ "...")

/-- Value of `toolLine` with the error collapsed (used only to state what a loop that
did not raise printed). -/
def toolLineStr (tool : Json) : String :=
  match toolLine tool with
  | .ok s => s
  | .error _ => ""

/-- Whether printing the report line of `tool` succeeds (i.e. `tool` is a dict
whose description, if any, is sliceable). -/
def toolLineOk (tool : Json) : Bool :=
  match toolLine tool with
  | .ok _ => true
  | .error _ => false

/-- The `for tool in tools[:5]` loop body over an iteration list. -/
def printTools (tools : List Json) (st : ClientState) :
    ClientState × Except PyError Unit :=
  match tools with
  | [] => (st, .ok ())
  | t :: rest =>
      match toolLine t with
      | .error e => (st, .error e)
      | .ok line => printTools rest (pr st line)

/-- The tools/list inspection block of `run_tests`:
`if "result" in response:` then fetch `response["result"].get("tools", [])`,
print `f"   Found \x7blen(tools)\x7d tools:"`, and print the first five tools. -/
def toolsReport (response : Json) (st : ClientState) :
    ClientState × Except PyError Unit :=
  match pyContains response "result" with
  | .error e => (st, .error e)
  | .ok false => (st, .ok ())
  | .ok true =>
      match pySubscript response "result" with
      | .error e => (st, .error e)
      | .ok result =>
          match pyGet result "tools" (Json.arr []) with
          | .error e => (st, .error e)
          | .ok tools =>
              match pyLen tools with
              | .error e => (st, .error e)
              | .ok n =>
                  let st := pr st ("   Found " ++ toString n ++ " tools:")
                  match pySlice tools 5 with
                  | .error e => (st, .error e)
                  | .ok firstFive =>
                      match pyIter firstFive with
                      | .error e => (st, .error e)
                      | .ok ts => printTools ts st

/-- Sequencing of one client call inside `run_tests`: a raise propagates. -/
def step (x : ClientState × Except PyError Json)
    (f : Json → ClientState → ClientState × Except PyError Unit) :
    ClientState × Except PyError Unit :=
  match x with
  | (st, .error e) => (st, .error e)
  | (st, .ok j) => f j st

/-- Sequencing of one `Unit`-valued block inside `run_tests`. -/
def stepU (x : ClientState × Except PyError Unit)
    (f : ClientState → ClientState × Except PyError Unit) :
    ClientState × Except PyError Unit :=
  match x with
  | (st, .error e) => (st, .error e)
  | (st, .ok _) => f st

/-- The params of test 1: `{"protocolVersion": "0.1.0", "capabilities": {}}`. -/
def initializeParams : Json :=
  Json.obj [("protocolVersion", .str "0.1.0"), ("capabilities", .obj [])]

/-- The arguments of test 3: `{"url": "http://localhost:8081/test"}`. -/
def navigateArgs : Json :=
  Json.obj [("url", .str "http://localhost:8081/test")]

/-- The arguments of test 5. -/
def verifyArgs : Json :=
  Json.obj [("expectedContent", .arr [.str "Test", .str "Form"]),
            ("unexpectedContent", .arr [.str "404", .str "Error"])]

/-- The arguments of test 6: `{"text": "Submit"}`. -/
def clickArgs : Json :=
  Json.obj [("text", .str "Submit")]

/-- The arguments of test 7. -/
def flowArgs : Json :=
  Json.obj [("goal", .str "Fill out the test form with sample data"),
            ("url", .str "http://localhost:8081/test/forms")]

/-- Method `MCPTestClient.run_tests()`: the banner, then the fixed sequence of seven
calls — initialize, tools/list (with its report block), and the five tool
calls — each step only reached when the previous one did not raise. -/
def run_tests (st : ClientState) : ClientState × Except PyError Unit :=
  let st := pr st ("\n" ++ String.mk (List.replicate 50 '='))
  let st := pr st "UI-PROBE MCP PROTOCOL TEST SUITE"
  let st := pr st (String.mk (List.replicate 50 '='))
  let st := pr st "\n1️⃣  INITIALIZE CONNECTION"
  step (send_request "initialize" (some initializeParams) st) fun _ st =>
  step (send_request "tools/list" (some (Json.obj []))
          (pr st "\n2️⃣  LIST AVAILABLE TOOLS")) fun response st =>
  stepU (toolsReport response st) fun st =>
  step (call_tool "navigate" navigateArgs
          (pr st "\n3️⃣  NAVIGATE TO TEST PAGE")) fun _ st =>
  step (call_tool "analyze_ui" (Json.obj [])
          (pr st "\n4️⃣  ANALYZE PAGE UI")) fun _ st =>
  step (call_tool "verify_page" verifyArgs
          (pr st "\n5️⃣  VERIFY PAGE CONTENT")) fun _ st =>
  step (call_tool "click_button" clickArgs
          (pr st "\n6️⃣  CLICK BUTTON TEST")) fun _ st =>
  step (call_tool "run_flow" flowArgs
          (pr st "\n7️⃣  RUN NATURAL LANGUAGE FLOW")) fun _ st =>
  (pr st "\n✅ All tests completed!", .ok ())

/-- An arbitrary sequence of `send_request` calls within one session, each
made only if the previous one did not raise. -/
def runSends (calls : List (String × Option Json)) (st : ClientState) :
    ClientState × Except PyError Unit :=
  match calls with
  | [] => (st, .ok ())
  | (m, p) :: rest =>
      match send_request m p st with
      | (st, .error e) => (st, .error e)
      | (st, .ok _) => runSends rest st

/-- The seven requests `run_tests` transmits when it runs to completion,
for a session whose counter stood at `rid`. -/
def scriptedRequests (rid : Nat) : List Request :=
  [ mkRequest "initialize" (some initializeParams) rid,
    mkRequest "tools/list" (some (Json.obj [])) (rid + 1),
    mkRequest "tools/call"
      (some (Json.obj [("name", .str "navigate"), ("arguments", navigateArgs)])) (rid + 2),
    mkRequest "tools/call"
      (some (Json.obj [("name", .str "analyze_ui"), ("arguments", .obj [])])) (rid + 3),
    mkRequest "tools/call"
      (some (Json.obj [("name", .str "verify_page"), ("arguments", verifyArgs)])) (rid + 4),
    mkRequest "tools/call"
      (some (Json.obj [("name", .str "click_button"), ("arguments", clickArgs)])) (rid + 5),
    mkRequest "tools/call"
      (some (Json.obj [("name", .str "run_flow"), ("arguments", flowArgs)])) (rid + 6) ]

/-- The single-tool tools/list response of the echo scenario in the spec:
`{"jsonrpc":"2.0","id":1,"result":{"tools":[{"name":"navigate","description":"Navigate to a URL"}]}}`. -/
def echoResponse : Json :=
  Json.obj [("jsonrpc", .str "2.0"), ("id", .num 1),
            ("result", Json.obj [("tools", Json.arr
              [Json.obj [("name", .str "navigate"),
                         ("description", .str "Navigate to a URL")]])])]

/-- A fresh session against a server that answers the first request with `{}`
and the second with the tools/list response of the echo scenario, then closes. -/
def echoSession : ClientState :=
  ClientState.init [some (Json.obj []), some echoResponse] true

/-! ### Basic frame lemmas -/

theorem pr_request_id (st : ClientState) (s : String) :
    (pr st s).request_id = st.request_id := rfl

theorem pr_sent (st : ClientState) (s : String) : (pr st s).sent = st.sent := rfl

theorem pr_stdout (st : ClientState) (s : String) : (pr st s).stdout = st.stdout := rfl

theorem pr_stdin_open (st : ClientState) (s : String) :
    (pr st s).stdin_open = st.stdin_open := rfl

/-! ### Characterizations of `send_request` -/

/-- The counter is incremented exactly once on every path through
`send_request`, the raising ones included. -/
theorem send_request_request_id (m : String) (p : Option Json) (st : ClientState) :
    (send_request m p st).1.request_id = st.request_id + 1 := by
  unfold send_request
  cases h : st.stdin_open <;> simp [h, pr]
  · cases hs : st.stdout with
    | nil => simp
    | cons l rest => cases l <;> simp [pr]

/-- Fact: `send_request` never changes whether the stdin of the child accepts writes. -/
theorem send_request_stdin_open (m : String) (p : Option Json) (st : ClientState) :
    (send_request m p st).1.stdin_open = st.stdin_open := by
  unfold send_request
  cases h : st.stdin_open <;> simp [h, pr]
  · cases hs : st.stdout with
    | nil => simp
    | cons l rest => cases l <;> simp [pr]

/-- With stdin open, the request is transmitted on every path — also when the
subsequent parse raises. -/
theorem send_request_open_sent (m : String) (p : Option Json) (st : ClientState)
    (h : st.stdin_open = true) :
    (send_request m p st).1.sent = st.sent ++ [mkRequest m p st.request_id] := by
  unfold send_request
  simp [h, pr]
  cases hs : st.stdout with
  | nil => simp
  | cons l rest => cases l <;> simp [pr]

/-- With stdin open, the I/O on the child is exactly one write of the
serialized request plus newline, one flush, one line read — in that order. -/
theorem send_request_open_events (m : String) (p : Option Json) (st : ClientState)
    (h : st.stdin_open = true) :
    (send_request m p st).1.events
      = st.events ++ [WireEvent.write (dumps (mkRequest m p st.request_id).toJson ++ "\n"),
                      WireEvent.flush, WireEvent.readline] := by
  unfold send_request
  simp [h, pr]
  cases hs : st.stdout with
  | nil => simp
  | cons l rest => cases l <;> simp [pr]

/-- With stdin closed, the write raises `BrokenPipeError`. -/
theorem send_request_closed (m : String) (p : Option Json) (st : ClientState)
    (h : st.stdin_open = false) :
    (send_request m p st).2 = Except.error PyError.brokenPipeError := by
  unfold send_request; simp [h, pr]

/-- With stdin closed, nothing is transmitted. -/
theorem send_request_closed_sent (m : String) (p : Option Json) (st : ClientState)
    (h : st.stdin_open = false) :
    (send_request m p st).1.sent = st.sent := by
  unfold send_request; simp [h, pr]

/-- What a call that returned normally did to the session state. -/
theorem send_request_ok_spec (m : String) (p : Option Json) (st st' : ClientState)
    (j : Json) (heq : send_request m p st = (st', Except.ok j)) :
    st'.sent = st.sent ++ [mkRequest m p st.request_id] ∧
    st'.request_id = st.request_id + 1 ∧ st'.stdin_open = st.stdin_open := by
  cases h : st.stdin_open
  · have := send_request_closed m p st h
    rw [heq] at this
    simp at this
  · refine ⟨?_, ?_, ?_⟩
    · have := send_request_open_sent m p st h
      rw [heq] at this
      exact this
    · have := send_request_request_id m p st
      rw [heq] at this
      exact this
    · have h2 := send_request_stdin_open m p st
      rw [heq] at h2
      exact h2.trans h

/-- At end-of-stream with stdin open, `send_request` returns `{}` and leaves
the exhausted stream and open stdin as they were. -/
theorem send_request_eof_eq (m : String) (p : Option Json) (st : ClientState)
    (hOpen : st.stdin_open = true) (hEof : st.stdout = []) :
    send_request m p st =
      ({ st with
          request_id := st.request_id + 1
          printed := st.printed ++ ["\n📤 Sending: " ++ m, "   Params: " ++ dumpsOptInd p]
          events := st.events ++
            [WireEvent.write (dumps (mkRequest m p st.request_id).toJson ++ "\n"),
             WireEvent.flush, WireEvent.readline]
          sent := st.sent ++ [mkRequest m p st.request_id] },
       Except.ok (Json.obj [])) := by
  obtain ⟨rid, sent, ev, prn, out, op⟩ := st
  simp only at hOpen hEof
  subst hOpen hEof
  unfold send_request
  simp [pr]

/-! ### The tools/list report block -/

/-- Fact: `printTools` only prints: with every line well-formed it appends exactly
the report lines and returns normally. -/
theorem printTools_printed (ts : List Json) :
    ∀ st : ClientState, (∀ t ∈ ts, toolLineOk t = true) →
      printTools ts st
        = ({ st with printed := st.printed ++ ts.map toolLineStr }, Except.ok ()) := by
  induction ts with
  | nil => intro st _; simp [printTools]
  | cons t rest ih =>
      intro st h
      have ht := h t (by simp)
      unfold printTools
      cases hl : toolLine t with
      | error e => simp [toolLineOk, hl] at ht
      | ok line =>
          show printTools rest (pr st line) = _
          rw [ih (pr st line) (fun t ht' => h t (by simp [ht']))]
          simp [pr, toolLineStr, hl]

/-- State frame: `printTools` touches nothing but the console. -/
theorem printTools_frame (ts : List Json) :
    ∀ st : ClientState,
      (printTools ts st).1.sent = st.sent ∧
      (printTools ts st).1.request_id = st.request_id ∧
      (printTools ts st).1.stdout = st.stdout ∧
      (printTools ts st).1.stdin_open = st.stdin_open := by
  induction ts with
  | nil => intro st; simp [printTools]
  | cons t rest ih =>
      intro st
      unfold printTools
      cases toolLine t <;> simp [pr, ih]

/-- State frame: `toolsReport` touches nothing but the console. -/
theorem toolsReport_frame (r : Json) (st : ClientState) :
    (toolsReport r st).1.sent = st.sent ∧
    (toolsReport r st).1.request_id = st.request_id ∧
    (toolsReport r st).1.stdout = st.stdout ∧
    (toolsReport r st).1.stdin_open = st.stdin_open := by
  unfold toolsReport
  split <;> try simp
  all_goals (try split <;> try simp)
  all_goals (try split <;> try simp)
  all_goals (try split <;> try simp)
  all_goals (try split <;> try simp [pr])
  all_goals (try split <;> try simp [pr])
  all_goals (try simp [pr, printTools_frame])

/-- On the empty-dict response the report block is skipped entirely. -/
theorem toolsReport_empty (st : ClientState) :
    toolsReport (Json.obj []) st = (st, Except.ok ()) := rfl

/-- The report block on a response of the shape
`{"result": {"tools": [...]}}`: it announces the tool count and prints one
line per tool among the first five. -/
theorem toolsReport_tools (tools : List Json) (st : ClientState)
    (h : (tools.take 5).all toolLineOk = true) :
    toolsReport (Json.obj [("result", Json.obj [("tools", Json.arr tools)])]) st
      = ({ st with printed := st.printed ++
            ("   Found " ++ toString tools.length ++ " tools:")
              :: (tools.take 5).map toolLineStr }, Except.ok ()) := by
  have h' : ∀ t ∈ tools.take 5, toolLineOk t = true := by simpa using h
  unfold toolsReport
  simp [pyContains, lookupKey, pySubscript, pyGet, pyLen, pySlice, pyIter]
  rw [printTools_printed _ _ h']
  simp [pr]

/-! ### Identifier bookkeeping over arbitrary call sequences -/

/-- Invariant carried along `runSends`: if the transmitted identifiers so far
are exactly `1, …, k` and the counter stands at `k + 1`, then after any
further calls the transmitted identifiers are again an initial segment of the
naturals from 1. -/
theorem runSends_ids_aux (calls : List (String × Option Json)) :
    ∀ st : ClientState,
      st.sent.map Request.id = List.range' 1 st.sent.length →
      st.request_id = st.sent.length + 1 →
      (runSends calls st).1.sent.map Request.id
        = List.range' 1 (runSends calls st).1.sent.length := by
  induction calls with
  | nil => intro st h1 _; simpa [runSends] using h1
  | cons c rest ih =>
      obtain ⟨m, p⟩ := c
      intro st h1 h2
      unfold runSends
      rcases heq : send_request m p st with ⟨st', r⟩
      have hmap : st'.sent.map Request.id = List.range' 1 st'.sent.length := by
        cases hop : st.stdin_open
        · have hsent := send_request_closed_sent m p st hop
          rw [heq] at hsent
          have hsent' : st'.sent = st.sent := hsent
          rw [hsent']
          exact h1
        · have hsent := send_request_open_sent m p st hop
          rw [heq] at hsent
          have hsent' : st'.sent = st.sent ++ [mkRequest m p st.request_id] := hsent
          rw [hsent']
          simp [mkRequest, h1, h2, List.range'_concat]
          omega
      cases r with
      | error e => simpa using hmap
      | ok j =>
          obtain ⟨hsent, hrid, _⟩ := send_request_ok_spec m p st st' j heq
          simp only []
          refine ih st' hmap ?_
          rw [hrid, hsent, h2]
          simp

/-! ### The claims -/

/-- C1: within one client session, the identifier of the n-th transmitted
request is n — identifiers start at 1, increase by exactly one per request
and are never reused, over every sequence of `send_request` calls. -/
theorem sent_identifiers_consecutive_from_one
    (calls : List (String × Option Json)) (out : List (Option Json)) (stdinOk : Bool) :
    (runSends calls (ClientState.init out stdinOk)).1.sent.map Request.id
      = List.range' 1 (runSends calls (ClientState.init out stdinOk)).1.sent.length :=
  runSends_ids_aux calls (ClientState.init out stdinOk) (by simp [ClientState.init])
    (by simp [ClientState.init])

/-- C2: `call_tool(name, arguments)` transmits a request whose method is
exactly `"tools/call"` and whose params are exactly
`{"name": name, "arguments": arguments}`. -/
theorem call_tool_request_shape (tool_name : String) (arguments : Json) (st : ClientState)
    (h : st.stdin_open = true) :
    (call_tool tool_name arguments st).1.sent
      = st.sent ++ [{ jsonrpc := "2.0", method := "tools/call",
                      params := Json.obj [("name", Json.str tool_name),
                                          ("arguments", arguments)],
                      id := st.request_id }] := by
  unfold call_tool
  rw [send_request_open_sent _ _ _ h]
  simp [mkRequest, effectiveParams, pyTruthy]

/-- Witness for C2 at a concrete session and tool call. -/
theorem call_tool_request_shape_witness :
    echoSession.stdin_open = true ∧
    (call_tool "navigate" navigateArgs echoSession).1.sent
      = echoSession.sent ++ [{ jsonrpc := "2.0", method := "tools/call",
                               params := Json.obj [("name", Json.str "navigate"),
                                                   ("arguments", navigateArgs)],
                               id := echoSession.request_id }] :=
  ⟨rfl, call_tool_request_shape "navigate" navigateArgs echoSession rfl⟩

/-- C3: when the output stream of the child is at end-of-stream, `send_request` returns
the empty mapping without raising, and `run_tests` runs to completion —
every one of its seven steps is still executed. -/
theorem eof_yields_empty_and_run_continues (m : String) (p : Option Json) (st : ClientState)
    (hOpen : st.stdin_open = true) (hEof : st.stdout = []) :
    (send_request m p st).2 = Except.ok (Json.obj []) ∧
    (run_tests st).2 = Except.ok () ∧
    (run_tests st).1.sent.length = st.sent.length + 7 := by
  refine ⟨?_, ?_, ?_⟩
  · rw [send_request_eof_eq m p st hOpen hEof]
  · simp only [run_tests, step, stepU]
    simp [send_request_eof_eq, call_tool, toolsReport_empty, pr, hOpen, hEof]
  · simp only [run_tests, step, stepU]
    simp [send_request_eof_eq, call_tool, toolsReport_empty, pr, hOpen, hEof]

/-- Witness for C3 at a fresh session whose server emits nothing. -/
theorem eof_yields_empty_and_run_continues_witness :
    (ClientState.init [] true).stdin_open = true ∧
    (ClientState.init [] true).stdout = [] ∧
    ((send_request "tools/list" (some (Json.obj [])) (ClientState.init [] true)).2
        = Except.ok (Json.obj []) ∧
      (run_tests (ClientState.init [] true)).2 = Except.ok () ∧
      (run_tests (ClientState.init [] true)).1.sent.length
        = (ClientState.init [] true).sent.length + 7) :=
  ⟨rfl, rfl,
    eof_yields_empty_and_run_continues "tools/list" (some (Json.obj []))
      (ClientState.init [] true) rfl rfl⟩

/-- C4: with the stdin of the child accepting writes, every `send_request` call
performs exactly one write — the serialized request followed by exactly one
newline — then one flush, then exactly one line read, and nothing else. -/
theorem send_request_single_write_flush_read (m : String) (p : Option Json)
    (st : ClientState) (h : st.stdin_open = true) :
    (send_request m p st).1.events
      = st.events ++ [WireEvent.write (dumps (mkRequest m p st.request_id).toJson ++ "\n"),
                      WireEvent.flush, WireEvent.readline] :=
  send_request_open_events m p st h

/-- Witness for C4 at a concrete session and request. -/
theorem send_request_single_write_flush_read_witness :
    (ClientState.init [] true).stdin_open = true ∧
    (send_request "initialize" (some initializeParams) (ClientState.init [] true)).1.events
      = (ClientState.init [] true).events ++
          [WireEvent.write
            (dumps (mkRequest "initialize" (some initializeParams)
              (ClientState.init [] true).request_id).toJson ++ "\n"),
           WireEvent.flush, WireEvent.readline] :=
  ⟨rfl, send_request_single_write_flush_read "initialize" (some initializeParams)
    (ClientState.init [] true) rfl⟩

/-- C5 counterexample: the claim "the transmitted params equal the supplied
value, and equal the empty mapping only when the argument is omitted" fails
on the code: supplying the (falsy) empty mapping — as `run_tests` itself
does for its tools/list call — or an explicit `None` transmits the empty
mapping even though the argument was supplied, and for `None` the
transmitted value differs from the supplied one. -/
theorem params_echo_counterexample :
    ((send_request "tools/list" (some (Json.obj [])) (ClientState.init [] true)).1.sent.map
        Request.params = [Json.obj []]) ∧
    ((send_request "tools/list" (some Json.null) (ClientState.init [] true)).1.sent.map
        Request.params = [Json.obj []]) ∧
    Json.obj [] ≠ Json.null :=
  ⟨rfl, rfl, fun h => Json.noConfusion h⟩

/-- C5 as amended: the transmitted params equal the supplied value whenever
that value is truthy; they are the empty mapping exactly when the argument
is omitted or the supplied value is falsy (such as `None` or `{}`). -/
theorem params_field_amended (m : String) (st : ClientState) (p : Json)
    (h : st.stdin_open = true) :
    (pyTruthy p = true →
      (send_request m (some p) st).1.sent
        = st.sent ++ [{ jsonrpc := "2.0", method := m, params := p,
                        id := st.request_id }]) ∧
    (pyTruthy p = false →
      (send_request m (some p) st).1.sent
        = st.sent ++ [{ jsonrpc := "2.0", method := m, params := Json.obj [],
                        id := st.request_id }]) ∧
    (send_request m none st).1.sent
      = st.sent ++ [{ jsonrpc := "2.0", method := m, params := Json.obj [],
                      id := st.request_id }] := by
  refine ⟨fun ht => ?_, fun hf => ?_, ?_⟩ <;>
    rw [send_request_open_sent _ _ _ h] <;>
    simp [mkRequest, effectiveParams]
  · simp [ht]
  · simp [hf]

/-- Witness for the amended C5 at a truthy concrete params value. -/
theorem params_field_amended_witness :
    (ClientState.init [] true).stdin_open = true ∧
    ((pyTruthy navigateArgs = true →
        (send_request "navigate" (some navigateArgs) (ClientState.init [] true)).1.sent
          = (ClientState.init [] true).sent ++
              [{ jsonrpc := "2.0", method := "navigate", params := navigateArgs,
                 id := (ClientState.init [] true).request_id }]) ∧
      (pyTruthy navigateArgs = false →
        (send_request "navigate" (some navigateArgs) (ClientState.init [] true)).1.sent
          = (ClientState.init [] true).sent ++
              [{ jsonrpc := "2.0", method := "navigate", params := Json.obj [],
                 id := (ClientState.init [] true).request_id }]) ∧
      (send_request "navigate" none (ClientState.init [] true)).1.sent
        = (ClientState.init [] true).sent ++
            [{ jsonrpc := "2.0", method := "navigate", params := Json.obj [],
               id := (ClientState.init [] true).request_id }]) :=
  ⟨rfl, params_field_amended "navigate" (ClientState.init [] true) navigateArgs rfl⟩

/-- C6: whenever `run_tests` runs to completion it has transmitted exactly
seven requests, in the fixed order initialize, tools/list, then tool calls
navigate, analyze_ui, verify_page, click_button, run_flow — and no others. -/
theorem run_tests_exactly_seven_requests (st : ClientState)
    (h : (run_tests st).2 = Except.ok ()) :
    (run_tests st).1.sent = st.sent ++ scriptedRequests st.request_id := by
  rcases hrun : run_tests st with ⟨stF, res⟩
  rw [hrun] at h
  simp at h
  subst h
  simp only [run_tests, step, stepU] at hrun
  split at hrun
  next st1 e1 heq1 => simp at hrun
  next st1 j1 heq1 =>
    obtain ⟨hs1, hr1, ho1⟩ := send_request_ok_spec _ _ _ _ _ heq1
    split at hrun
    next st2 e2 heq2 => simp at hrun
    next st2 j2 heq2 =>
      obtain ⟨hs2, hr2, ho2⟩ := send_request_ok_spec _ _ _ _ _ heq2
      split at hrun
      next st3 e3 heq3 => simp at hrun
      next st3 j3 heq3 =>
        obtain ⟨hs3, hr3, _, _⟩ := toolsReport_frame j2 st2
        rw [heq3] at hs3 hr3
        split at hrun
        next st4 e4 heq4 => simp at hrun
        next st4 j4 heq4 =>
          obtain ⟨hs4, hr4, ho4⟩ := send_request_ok_spec _ _ _ _ _ heq4
          split at hrun
          next st5 e5 heq5 => simp at hrun
          next st5 j5 heq5 =>
            obtain ⟨hs5, hr5, ho5⟩ := send_request_ok_spec _ _ _ _ _ heq5
            split at hrun
            next st6 e6 heq6 => simp at hrun
            next st6 j6 heq6 =>
              obtain ⟨hs6, hr6, ho6⟩ := send_request_ok_spec _ _ _ _ _ heq6
              split at hrun
              next st7 e7 heq7 => simp at hrun
              next st7 j7 heq7 =>
                obtain ⟨hs7, hr7, ho7⟩ := send_request_ok_spec _ _ _ _ _ heq7
                split at hrun
                next st8 e8 heq8 => simp at hrun
                next st8 j8 heq8 =>
                  obtain ⟨hs8, hr8, ho8⟩ := send_request_ok_spec _ _ _ _ _ heq8
                  have hF : stF = pr st8 "\n✅ All tests completed!" := by
                    have := congrArg Prod.fst hrun
                    simpa using this.symm
                  subst hF
                  simp only [pr_sent, pr_request_id, pr] at hs1 hs2 hs3 hs4 hs5 hs6 hs7 hs8 hr1 hr2 hr3 hr4 hr5 hr6 hr7 hr8 ⊢
                  simp only [call_tool] at *
                  rw [hs8, hs7, hs6, hs5, hs4, hs3, hs2, hs1]
                  rw [hr7, hr6, hr5, hr4, hr3, hr2, hr1]
                  simp [scriptedRequests, List.append_assoc]

/-- Witness for C6: against a server that emits nothing, the run completes
having sent exactly the seven scripted requests. -/
theorem run_tests_exactly_seven_requests_witness :
    (run_tests (ClientState.init [] true)).2 = Except.ok () ∧
    (run_tests (ClientState.init [] true)).1.sent
      = (ClientState.init [] true).sent
          ++ scriptedRequests (ClientState.init [] true).request_id :=
  ⟨rfl, run_tests_exactly_seven_requests (ClientState.init [] true) rfl⟩

/-- C7: when the tools/list response carries `result.tools` with N entries,
the report prints "Found N tools:" and one name-and-truncated-description
line for each of the first min(N, 5) tools; in particular, on the
single-tool echo response given in the spec, the run reports "Found 1 tools"
and prints the name of the navigate tool and its truncated description. -/
theorem tools_list_report_output (tools : List Json) (st : ClientState)
    (h : (tools.take 5).all toolLineOk = true) :
    ((toolsReport (Json.obj [("result", Json.obj [("tools", Json.arr tools)])]) st).1.printed
        = st.printed ++ ("   Found " ++ toString tools.length ++ " tools:")
            :: (tools.take 5).map toolLineStr) ∧
    "   Found 1 tools:" ∈ (run_tests echoSession).1.printed ∧
    "   - navigate: Navigate to a URL..." ∈ (run_tests echoSession).1.printed := by
  refine ⟨?_, by decide, by decide⟩
  rw [toolsReport_tools tools st h]

/-- Witness for C7 at the one-tool list of the echo scenario. -/
theorem tools_list_report_output_witness :
    (([Json.obj [("name", Json.str "navigate"),
                 ("description", Json.str "Navigate to a URL")]] : List Json).take 5).all
        toolLineOk = true ∧
    (((toolsReport
          (Json.obj [("result", Json.obj [("tools", Json.arr
            [Json.obj [("name", Json.str "navigate"),
                       ("description", Json.str "Navigate to a URL")]])])])
          (ClientState.init [] true)).1.printed
        = (ClientState.init [] true).printed ++
            ("   Found " ++
              toString ([Json.obj [("name", Json.str "navigate"),
                                   ("description", Json.str "Navigate to a URL")]] :
                List Json).length ++ " tools:")
              :: (([Json.obj [("name", Json.str "navigate"),
                              ("description", Json.str "Navigate to a URL")]] :
                    List Json).take 5).map toolLineStr) ∧
      "   Found 1 tools:" ∈ (run_tests echoSession).1.printed ∧
      "   - navigate: Navigate to a URL..." ∈ (run_tests echoSession).1.printed) :=
  ⟨by decide,
    tools_list_report_output
      [Json.obj [("name", Json.str "navigate"),
                 ("description", Json.str "Navigate to a URL")]]
      (ClientState.init [] true) (by decide)⟩

/-- C8: a non-empty response line that is not valid JSON makes `send_request`
raise the parse error instead of returning a value. -/
theorem invalid_json_line_raises (m : String) (p : Option Json) (st : ClientState)
    (rest : List (Option Json)) (hOpen : st.stdin_open = true)
    (hs : st.stdout = none :: rest) :
    (send_request m p st).2 = Except.error PyError.jsonDecodeError := by
  unfold send_request
  simp [hOpen, hs, pr]

/-- Witness for C8: a session whose first response line is unparseable. -/
theorem invalid_json_line_raises_witness :
    (ClientState.init [none] true).stdin_open = true ∧
    (ClientState.init [none] true).stdout = none :: [] ∧
    (send_request "initialize" (some initializeParams)
        (ClientState.init [none] true)).2 = Except.error PyError.jsonDecodeError :=
  ⟨rfl, rfl,
    invalid_json_line_raises "initialize" (some initializeParams)
      (ClientState.init [none] true) [] rfl rfl⟩

/-- C9: a response line that parses is returned exactly as parsed — for every
parsed value, whatever its `id` field holds (or whether it has one), so the
returned value never depends on the response identifier matching the request
identifier. -/
theorem response_returned_verbatim_regardless_of_id (m : String) (p : Option Json)
    (st : ClientState) (j : Json) (rest : List (Option Json))
    (hOpen : st.stdin_open = true) (hs : st.stdout = some j :: rest) :
    (send_request m p st).2 = Except.ok j := by
  unfold send_request
  simp [hOpen, hs, pr]

/-- Witness for C9: the request carries identifier 1, the response carries
identifier 999, and the response is returned unchanged anyway. -/
theorem response_returned_verbatim_regardless_of_id_witness :
    (ClientState.init [some (Json.obj [("jsonrpc", Json.str "2.0"), ("id", Json.num 999),
        ("result", Json.obj [])])] true).stdin_open = true ∧
    (ClientState.init [some (Json.obj [("jsonrpc", Json.str "2.0"), ("id", Json.num 999),
        ("result", Json.obj [])])] true).stdout
      = some (Json.obj [("jsonrpc", Json.str "2.0"), ("id", Json.num 999),
          ("result", Json.obj [])]) :: [] ∧
    (send_request "tools/list" (some (Json.obj []))
        (ClientState.init [some (Json.obj [("jsonrpc", Json.str "2.0"), ("id", Json.num 999),
          ("result", Json.obj [])])] true)).2
      = Except.ok (Json.obj [("jsonrpc", Json.str "2.0"), ("id", Json.num 999),
          ("result", Json.obj [])]) :=
  ⟨rfl, rfl,
    response_returned_verbatim_regardless_of_id "tools/list" (some (Json.obj []))
      (ClientState.init [some (Json.obj [("jsonrpc", Json.str "2.0"), ("id", Json.num 999),
        ("result", Json.obj [])])] true)
      (Json.obj [("jsonrpc", Json.str "2.0"), ("id", Json.num 999), ("result", Json.obj [])])
      [] rfl rfl⟩

/-- C10: every `send_request` call — the raising ones included, since the
increment precedes all I/O on the child — advances the session counter by
exactly one, so the identifier of a failed request is consumed. -/
theorem request_id_always_incremented_once (m : String) (p : Option Json)
    (st : ClientState) :
    (send_request m p st).1.request_id = st.request_id + 1 :=
  send_request_request_id m p st

end UIProbe
